import Mathlib

/-!
Verification of the `autocxx-gen` command-line orchestrator (`gen/cmd/src/main.rs`).

The program parses command-line arguments, invokes the external collaborators
`parse_file` and `resolve_all`, and then branches on the subcommand:
`gen-cpp` fans binding blocks out into numbered implementation/header file
pairs and pads up to a requested floor, while `gen-rs` writes a single
re-serialized source file.  We embed the orchestration logic shallowly: the
external collaborators are opaque inputs (a `World`), and a run is the ordered
trace of external calls, `write_to_file` invocations and panics it performs.
-/

namespace AutocxxGen

deriving instance DecidableEq for Except

/-- One header/implementation pairing produced by the external per-block
generator (`CppFilePair` in the engine): implementation text `pair.implementation`,
header text `pair.header`, and the externally supplied `pair.header_name`. -/
structure GenerationPair where
  implementation : String
  header_name : String
  header : String
deriving DecidableEq

/-- One `include_cpp!` binding block as returned by `get_autocxxes()`; `generated`
is the opaque outcome of its `generate_h_and_cxx()` call — the ordered list of
pairs on success, or a diagnostic on failure. -/
structure BindingBlock where
  generated : Except String (List GenerationPair)
deriving DecidableEq

/-- Observable events of a run of `main`: the calls to the external
collaborators, each `write_to_file` invocation (filename relative to `outdir`,
content), and panics. -/
inductive Step where
  | callParse : Step
  | callResolve : Step
  | callGenerate : Step
  | writeFile : String → String → Step
  | panicked : String → Step
deriving DecidableEq

/-- The implementation filename computed inline in the per-pair loop
(main.rs line 110): `format!("{}{}.{}", pattern, counter, cpp)` — the pattern,
the decimal rendering of the counter, a dot, the extension. -/
def cppName (pattern : String) (counter : Nat) (cpp : String) : String :=
  pattern ++ Nat.repr counter ++ "." ++ cpp

/-- `write_cpp_file` (main.rs lines 137-140): recomputes the filename with its
own `format!("{}{}.{}", pattern, counter, cpp)` and delegates to
`write_to_file`; modelled as the write event that call emits. -/
def write_cpp_file (pattern : String) (cpp : String) (counter : Nat)
    (content : String) : Step :=
  Step.writeFile (pattern ++ Nat.repr counter ++ "." ++ cpp) content

/-- The inner `for pair in generations.0` loop (main.rs lines 109-114): write
the implementation under the counter-derived name, write the header under its
externally supplied name, increment the counter.  Returns the emitted steps
and the final counter. -/
def pairLoop (pattern cpp : String) (counter : Nat) :
    List GenerationPair → List Step × Nat
  | [] => ([], counter)
  | pair :: rest =>
    let next := pairLoop pattern cpp (counter + 1) rest
    (Step.writeFile (cppName pattern counter cpp) pair.implementation ::
      Step.writeFile pair.header_name pair.header :: next.1, next.2)

/-- The outer `for include_cxx in parsed_file.get_autocxxes()` loop
(main.rs lines 105-115): per block, call the generator (`expect` — fatal on
failure, nothing further runs), then run the pair loop.  Returns the steps and
`some` final counter, or `none` when a generation failure aborted the run. -/
def blockLoop (pattern cpp : String) (counter : Nat) :
    List BindingBlock → List Step × Option Nat
  | [] => ([], some counter)
  | b :: rest =>
    match b.generated with
    | Except.error _ =>
      ([Step.callGenerate,
        Step.panicked "Unable to generate header and C++ code"], none)
    | Except.ok pairs =>
      let inner := pairLoop pattern cpp counter pairs
      let next := blockLoop pattern cpp inner.2 rest
      (Step.callGenerate :: inner.1 ++ next.1, next.2)

/-- The `while counter < desired_number` padding loop (main.rs lines 117-127):
while the counter is below the requested floor, write a blank C++ file via
`write_cpp_file` and increment the counter. -/
def paddingLoop (pattern cpp : String) (counter desired : Nat) : List Step :=
  if _h : counter < desired then
    write_cpp_file pattern cpp counter "// Blank C++ file generated by autocxx" ::
      paddingLoop pattern cpp (counter + 1) desired
  else []
termination_by desired - counter
decreasing_by omega

/-- The `gen-cpp` branch after option extraction (main.rs lines 104-127): run
the block loop from counter 0; if generation panicked the trace ends there;
otherwise, when a `generate-exact` floor was requested, run the padding loop
from the final counter. -/
def genCppRun (pattern cpp : String) (desired : Option Nat)
    (blocks : List BindingBlock) : List Step :=
  match blockLoop pattern cpp 0 blocks with
  | (steps, none) => steps
  | (steps, some counter) =>
    match desired with
    | some d => steps ++ paddingLoop pattern cpp counter d
    | none => steps

/-- The `gen-cpp` subcommand's matched option values as clap delivers them:
`pattern` and `cppExtension` already carry their declared defaults
("gen" / "cc"); `generateExact` is the raw argument string when given. -/
structure GenCppMatches where
  pattern : String
  cppExtension : String
  generateExact : Option String
deriving DecidableEq

/-- The part of `App::get_matches()`'s result that `main`'s control flow
consults: `subGenCpp` is `some` when the `gen-cpp` subcommand matched,
`subGenRs` is true when `gen-rs` matched.  Malformed argument shapes that clap
itself rejects never reach `main`'s body and are outside this type. -/
structure Matches where
  input : String
  outdir : String
  inc : Option String
  subGenCpp : Option GenCppMatches
  subGenRs : Bool
deriving DecidableEq

/-- Behaviour of the external collaborators during one run: whether
`parse_file` and `resolve_all` succeed, the binding blocks `get_autocxxes()`
yields after resolution, and the serialization `to_tokens` / `to_string`
produces for the resolved unit. -/
structure World where
  parseResult : Except String Unit
  resolveResult : Except String Unit
  blocks : List BindingBlock
  tokensString : String
deriving DecidableEq

/-- One digit step of `usize::from_str` (Rust core): accumulate an ASCII
decimal digit, reject any other character. -/
def digitsVal (acc : Nat) : List Char → Option Nat
  | [] => some acc
  | c :: rest =>
    if '0' ≤ c ∧ c ≤ '9' then digitsVal (acc * 10 + (c.toNat - 48)) rest
    else none

/-- `str::parse::<usize>` (Rust core `from_str_radix` at radix 10): an optional
leading `+` followed by one or more ASCII digits; empty input, a lone sign,
any non-digit character, and values exceeding `usize::MAX` (64-bit) are
rejected. -/
def parseUsize (s : String) : Option Nat :=
  let body : List Char → Option Nat := fun l =>
    if l = [] then none
    else
      match digitsVal 0 l with
      | some v => if v < 2 ^ 64 then some v else none
      | none => none
  match s.data with
  | '+' :: rest => body rest
  | l => body l

/-- `main` after `get_matches` (main.rs lines 89-135), as the ordered trace of
external calls, `write_to_file` invocations and panics: call `parse_file`
(fatal on failure), call `resolve_all` (fatal on failure), then branch on the
subcommand.  In the `gen-cpp` branch the `generate-exact` string is parsed up
front with `unwrap` (fatal on a non-numeric value); with no subcommand the
program panics. -/
def runMain (m : Matches) (w : World) : List Step :=
  Step.callParse ::
    match w.parseResult with
    | Except.error _ =>
      [Step.panicked "Unable to parse Rust file and interpret autocxx macro"]
    | Except.ok _ =>
      Step.callResolve ::
        match w.resolveResult with
        | Except.error _ => [Step.panicked "Unable to resolve macro"]
        | Except.ok _ =>
          match m.subGenCpp with
          | some gm =>
            match gm.generateExact with
            | some s =>
              match parseUsize s with
              | none => [Step.panicked "called Result::unwrap on an Err value"]
              | some n =>
                genCppRun gm.pattern gm.cppExtension (some n) w.blocks
            | none => genCppRun gm.pattern gm.cppExtension none w.blocks
          | none =>
            if m.subGenRs then [Step.writeFile "gen.rs" w.tokensString]
            else [Step.panicked "Must specify a subcommand"]

/-- Contents of the output directory, filename → content. -/
def FileSystem := String → Option String

/-- The effect of `write_to_file` (main.rs lines 142-146) on the output
directory: `File::create` followed by `write_all` — a direct create that
silently overwrites any existing file at that path. -/
def write_to_file (fs : FileSystem) (filename : String) (content : String) :
    FileSystem :=
  fun q => if q = filename then some content else fs q

/-- Apply a list of writes to the directory in order. -/
def applyWrites (fs : FileSystem) : List (String × String) → FileSystem
  | [] => fs
  | (n, c) :: rest => applyWrites (write_to_file fs n c) rest

/-- Observer: the write events of a trace, in order. -/
def writesOf : List Step → List (String × String)
  | [] => []
  | Step.writeFile n c :: rest => (n, c) :: writesOf rest
  | _ :: rest => writesOf rest

/-- Observer: every other element of a list, starting with the first. -/
def everyOther {α : Type} : List α → List α
  | [] => []
  | [x] => [x]
  | x :: _ :: rest => x :: everyOther rest

/-- Spec-side expected write sequence of the per-pair loop: for the i-th pair
(0-based) starting at counter c, the implementation under the policy name for
counter c+i, then the header under its supplied name. -/
def expectedPairWrites (pattern cpp : String) (counter : Nat) :
    List GenerationPair → List (String × String)
  | [] => []
  | pair :: rest =>
    (cppName pattern counter cpp, pair.implementation) ::
      (pair.header_name, pair.header) ::
        expectedPairWrites pattern cpp (counter + 1) rest

/-- The pairs a block contributes: its generator output on success. -/
def okPairs (b : BindingBlock) : List GenerationPair :=
  match b.generated with
  | Except.ok l => l
  | Except.error _ => []

/-- All generator invocations of a run succeed. -/
def allOk (blocks : List BindingBlock) : Prop :=
  ∀ b ∈ blocks, b.generated.isOk = true

instance (blocks : List BindingBlock) : Decidable (allOk blocks) :=
  List.decidableBAll _ blocks

/-- All Generation Pairs across all blocks, in source order. -/
def allPairs (blocks : List BindingBlock) : List GenerationPair :=
  (blocks.map okPairs).flatten

/-! ### Helper lemmas about the loops -/

theorem pairLoop_eq (p e : String) (c : Nat) (pairs : List GenerationPair) :
    pairLoop p e c pairs
      = ((expectedPairWrites p e c pairs).map (fun w => Step.writeFile w.1 w.2),
         c + pairs.length) := by
  induction pairs generalizing c with
  | nil => simp [pairLoop, expectedPairWrites]
  | cons pair rest ih =>
    simp [pairLoop, expectedPairWrites, ih]
    omega

theorem expectedPairWrites_append (p e : String) (c : Nat)
    (l₁ l₂ : List GenerationPair) :
    expectedPairWrites p e c (l₁ ++ l₂)
      = expectedPairWrites p e c l₁ ++ expectedPairWrites p e (c + l₁.length) l₂ := by
  induction l₁ generalizing c with
  | nil => simp [expectedPairWrites]
  | cons pair rest ih =>
    simp [expectedPairWrites, ih]
    congr 1
    omega

theorem writesOf_append (t₁ t₂ : List Step) :
    writesOf (t₁ ++ t₂) = writesOf t₁ ++ writesOf t₂ := by
  induction t₁ with
  | nil => rfl
  | cons s rest ih => cases s <;> simp [writesOf, ih]

theorem writesOf_map_writeFile (l : List (String × String)) :
    writesOf (l.map (fun w => Step.writeFile w.1 w.2)) = l := by
  induction l with
  | nil => rfl
  | cons w rest ih => simp [writesOf, ih]

theorem writesOf_callGenerate (t : List Step) :
    writesOf (Step.callGenerate :: t) = writesOf t := rfl

theorem blockLoop_eq (p e : String) (blocks : List BindingBlock) :
    allOk blocks → ∀ c : Nat,
    (blockLoop p e c blocks).2 = some (c + (allPairs blocks).length)
    ∧ writesOf (blockLoop p e c blocks).1
        = expectedPairWrites p e c (allPairs blocks) := by
  induction blocks with
  | nil => intro _ c; simp [blockLoop, allPairs, writesOf, expectedPairWrites]
  | cons b rest ih =>
    intro h c
    have hb : b.generated.isOk = true := h b (List.mem_cons_self b rest)
    have hrest : allOk rest := fun x hx => h x (List.mem_cons_of_mem b hx)
    match hbg : b.generated with
    | Except.error msg => rw [hbg] at hb; simp [Except.isOk, Except.toBool] at hb
    | Except.ok pairs =>
      have hok : okPairs b = pairs := by simp [okPairs, hbg]
      have h2 := ih hrest (c + pairs.length)
      simp only [blockLoop, hbg, pairLoop_eq]
      constructor
      · rw [h2.1]
        simp [allPairs, hok, List.flatten]
        omega
      · rw [writesOf_append, writesOf_callGenerate, writesOf_map_writeFile, h2.2]
        have hcons : allPairs (b :: rest) = pairs ++ allPairs rest := by
          simp [allPairs, hok]
        rw [hcons, expectedPairWrites_append]

theorem paddingLoop_eq (p e : String) (c d : Nat) :
    paddingLoop p e c d
      = (List.range (d - c)).map
          (fun j => write_cpp_file p e (c + j)
            "// Blank C++ file generated by autocxx") := by
  generalize hn : d - c = n
  induction n generalizing c with
  | zero =>
    rw [paddingLoop]
    rw [dif_neg (by omega)]
    simp
  | succ k ih =>
    rw [paddingLoop]
    rw [dif_pos (by omega)]
    rw [ih (c + 1) (by omega)]
    rw [List.range_succ_eq_map]
    simp only [List.map_cons, List.map_map, Nat.add_zero]
    congr 1
    apply List.map_congr_left
    intro a _
    simp only [Function.comp_apply]
    congr 1
    omega

theorem blockLoop_split (p e : String) (blocks : List BindingBlock)
    (h : allOk blocks) :
    blockLoop p e 0 blocks
      = ((blockLoop p e 0 blocks).1, some (allPairs blocks).length) := by
  have hc : (blockLoop p e 0 blocks).2 = some (allPairs blocks).length := by
    rw [(blockLoop_eq p e blocks h 0).1, Nat.zero_add]
  conv_lhs => rw [← Prod.mk.eta (p := blockLoop p e 0 blocks)]
  rw [hc]

theorem genCppRun_some_eq (p e : String) (blocks : List BindingBlock)
    (h : allOk blocks) (d : Nat) :
    genCppRun p e (some d) blocks
      = (blockLoop p e 0 blocks).1
          ++ paddingLoop p e (allPairs blocks).length d := by
  unfold genCppRun
  rw [blockLoop_split p e blocks h]

theorem genCppRun_none_eq (p e : String) (blocks : List BindingBlock)
    (h : allOk blocks) :
    genCppRun p e none blocks = (blockLoop p e 0 blocks).1 := by
  unfold genCppRun
  rw [blockLoop_split p e blocks h]

theorem everyOther_expectedPairWrites (p e : String) (c : Nat)
    (l : List GenerationPair) :
    (everyOther (expectedPairWrites p e c l)).map Prod.fst
      = (List.range l.length).map (fun i => cppName p (c + i) e) := by
  induction l generalizing c with
  | nil => rfl
  | cons pair rest ih =>
    simp only [expectedPairWrites, everyOther, List.map_cons]
    rw [ih (c + 1)]
    simp only [List.length_cons]
    rw [List.range_succ_eq_map]
    simp only [List.map_cons, List.map_map, Nat.add_zero]
    congr 1
    apply List.map_congr_left
    intro a _
    simp only [Function.comp_apply]
    congr 1
    omega

/-! ### Injectivity of the decimal rendering used by the Naming Policy -/

/-- Decimal value of a digit-character string, most significant digit first. -/
def decVal (l : List Char) : Nat :=
  l.foldl (fun a c => a * 10 + (c.toNat - 48)) 0

theorem digitChar_toNat : ∀ d, d < 10 → (Nat.digitChar d).toNat = 48 + d := by
  decide

theorem toDigitsCore_append (fuel : Nat) :
    ∀ (n : Nat) (ds : List Char),
      Nat.toDigitsCore 10 fuel n ds = Nat.toDigitsCore 10 fuel n [] ++ ds := by
  induction fuel with
  | zero => intro n ds; simp [Nat.toDigitsCore]
  | succ f ih =>
    intro n ds
    simp only [Nat.toDigitsCore]
    by_cases h : n / 10 = 0
    · rw [if_pos h, if_pos h]
      rfl
    · rw [if_neg h, if_neg h, ih (n / 10) (Nat.digitChar (n % 10) :: ds),
        ih (n / 10) [Nat.digitChar (n % 10)], List.append_assoc,
        List.singleton_append]

theorem decVal_append_digit (l : List Char) (c : Char) :
    decVal (l ++ [c]) = decVal l * 10 + (c.toNat - 48) := by
  simp [decVal, List.foldl_append]

theorem decVal_toDigitsCore (fuel : Nat) :
    ∀ n, n < 10 ^ fuel → decVal (Nat.toDigitsCore 10 fuel n []) = n := by
  induction fuel with
  | zero =>
    intro n hn
    have : n = 0 := by simpa using hn
    subst this
    rfl
  | succ f ih =>
    intro n hn
    simp only [Nat.toDigitsCore]
    by_cases h : n / 10 = 0
    · rw [if_pos h]
      have hlt : n % 10 < 10 := Nat.mod_lt _ (by norm_num)
      have hmod := Nat.div_add_mod n 10
      show decVal [Nat.digitChar (n % 10)] = n
      simp only [decVal, List.foldl, digitChar_toNat (n % 10) hlt]
      omega
    · rw [if_neg h, toDigitsCore_append, decVal_append_digit]
      have hdiv : n / 10 < 10 ^ f := by
        apply Nat.div_lt_of_lt_mul
        rw [pow_succ] at hn
        omega
      rw [ih (n / 10) hdiv]
      have hlt : n % 10 < 10 := Nat.mod_lt _ (by norm_num)
      have hmod := Nat.div_add_mod n 10
      rw [digitChar_toNat (n % 10) hlt]
      omega

theorem decVal_toDigits (n : Nat) : decVal (Nat.toDigits 10 n) = n := by
  have hlt : n < 10 ^ (n + 1) :=
    lt_of_lt_of_le (Nat.lt_two_pow n)
      (le_trans (Nat.pow_le_pow_left (by norm_num) n)
        (Nat.pow_le_pow_right (by norm_num) (Nat.le_succ n)))
  exact decVal_toDigitsCore (n + 1) n hlt

theorem toDigits_inj {m n : Nat} (h : Nat.toDigits 10 m = Nat.toDigits 10 n) :
    m = n := by
  have h1 := decVal_toDigits m
  rw [h, decVal_toDigits n] at h1
  exact h1.symm

theorem repr_inj_nat {m n : Nat} (h : Nat.repr m = Nat.repr n) : m = n := by
  apply toDigits_inj
  have := congrArg String.data h
  simpa [Nat.repr, List.asString] using this

theorem cppName_injective (p e : String) {i j : Nat} (hne : i ≠ j) :
    cppName p i e ≠ cppName p j e := by
  intro h
  apply hne
  apply repr_inj_nat
  have hd := congrArg String.data h
  simp only [cppName, String.data_append, List.append_assoc] at hd
  have h1 := List.append_cancel_left hd
  have h2 := List.append_cancel_right h1
  exact String.ext h2

/-! ### Claim theorems -/

/-- C4: The Naming Policy is a pure function equal to
pattern ++ decimal(counter) ++ "." ++ extension, and for every fixed pattern
and extension it is injective over counters: name(p, e, i) ≠ name(p, e, j)
whenever i ≠ j. -/
theorem c4_naming_policy_pure_injective :
    (∀ (p e : String) (i : Nat), cppName p i e = p ++ Nat.repr i ++ "." ++ e)
    ∧ (∀ (p e : String) (i j : Nat), i ≠ j → cppName p i e ≠ cppName p j e) :=
  ⟨fun _ _ _ => rfl, fun p e _ _ hne => cppName_injective p e hne⟩

/-- Witness for C4 at pattern "gen", extension "cc", counters 0 and 1. -/
theorem c4_naming_policy_pure_injective_witness :
    cppName "gen" 0 "cc" = "gen" ++ Nat.repr 0 ++ "." ++ "cc"
    ∧ cppName "gen" 0 "cc" ≠ cppName "gen" 1 "cc" :=
  ⟨c4_naming_policy_pure_injective.1 "gen" "cc" 0,
   c4_naming_policy_pure_injective.2 "gen" "cc" 0 1 (by decide)⟩

/-- C8: the filename computed by the padding-file writer `write_cpp_file`
equals the filename computed inline in the per-pair loop for every equal
triple of pattern, counter and extension: the real implementation files and
the padding files share one naming function. -/
theorem c8_write_cpp_file_matches_inline (p e content : String) (c : Nat) :
    write_cpp_file p e c content = Step.writeFile (cppName p c e) content :=
  rfl

/-- C9: the padding loop terminates for every requested floor and starting
counter, performing exactly `desired - counter` iterations (truncated Nat
subtraction, i.e. max(desired − counter, 0)). -/
theorem c9_padding_loop_iteration_count (p e : String) (c d : Nat) :
    (paddingLoop p e c d).length = d - c := by
  rw [paddingLoop_eq]
  simp

/-- C5: in every gen-cpp run the Run Counter starts at 0, increases by exactly
one per Generation Pair emitted, is never reset, and its value immediately
after the main per-block loop (before padding) equals the total number of
Generation Pairs produced across all Binding Blocks. -/
theorem c5_run_counter_invariant (p e : String) (blocks : List BindingBlock)
    (h : allOk blocks) :
    (∀ (c : Nat) (pairs : List GenerationPair),
      (pairLoop p e c pairs).2 = c + pairs.length)
    ∧ (∀ c : Nat,
        (blockLoop p e c blocks).2 = some (c + (allPairs blocks).length))
    ∧ (blockLoop p e 0 blocks).2 = some (allPairs blocks).length := by
  refine ⟨fun c pairs => by rw [pairLoop_eq], fun c => (blockLoop_eq p e blocks h c).1, ?_⟩
  rw [(blockLoop_eq p e blocks h 0).1, Nat.zero_add]

/-- Witness for C5: one block generating two pairs. -/
theorem c5_run_counter_invariant_witness :
    (∀ (c : Nat) (pairs : List GenerationPair),
      (pairLoop "gen" "cc" c pairs).2 = c + pairs.length)
    ∧ (∀ c : Nat,
        (blockLoop "gen" "cc" c
          [BindingBlock.mk (Except.ok
            [GenerationPair.mk "implA" "hdrA.h" "headerA",
             GenerationPair.mk "implB" "hdrB.h" "headerB"])]).2
          = some (c + (allPairs
              [BindingBlock.mk (Except.ok
                [GenerationPair.mk "implA" "hdrA.h" "headerA",
                 GenerationPair.mk "implB" "hdrB.h" "headerB"])]).length))
    ∧ (blockLoop "gen" "cc" 0
        [BindingBlock.mk (Except.ok
          [GenerationPair.mk "implA" "hdrA.h" "headerA",
           GenerationPair.mk "implB" "hdrB.h" "headerB"])]).2
        = some (allPairs
            [BindingBlock.mk (Except.ok
              [GenerationPair.mk "implA" "hdrA.h" "headerA",
               GenerationPair.mk "implB" "hdrB.h" "headerB"])]).length :=
  c5_run_counter_invariant "gen" "cc"
    [BindingBlock.mk (Except.ok
      [GenerationPair.mk "implA" "hdrA.h" "headerA",
       GenerationPair.mk "implB" "hdrB.h" "headerB"])] (by decide)

/-- C1: in gen-cpp mode, for requested floor N and actual pair count
k = (allPairs blocks).length: the run writes the k implementation+header
pairs followed by N − k padding implementation files (none when N ≤ k, since
Nat subtraction truncates); with no floor, exactly the k pairs are written;
and for N ≥ k the implementation filenames (pair implementations, then
padding) form the contiguous counter sequence 0..N-1. -/
theorem c1_generate_exact_accounting (p e : String) (blocks : List BindingBlock)
    (h : allOk blocks) :
    (∀ N : Nat,
      writesOf (genCppRun p e (some N) blocks)
        = expectedPairWrites p e 0 (allPairs blocks)
            ++ (List.range (N - (allPairs blocks).length)).map
                (fun j => (cppName p ((allPairs blocks).length + j) e,
                  "// Blank C++ file generated by autocxx")))
    ∧ writesOf (genCppRun p e none blocks)
        = expectedPairWrites p e 0 (allPairs blocks)
    ∧ (∀ N : Nat, (allPairs blocks).length ≤ N →
        (everyOther (expectedPairWrites p e 0 (allPairs blocks))).map Prod.fst
            ++ (List.range (N - (allPairs blocks).length)).map
                (fun j => cppName p ((allPairs blocks).length + j) e)
          = (List.range N).map (fun i => cppName p i e)) := by
  refine ⟨fun N => ?_, ?_, fun N hN => ?_⟩
  · rw [genCppRun_some_eq p e blocks h N, writesOf_append,
      (blockLoop_eq p e blocks h 0).2, paddingLoop_eq]
    have hpad : (List.range (N - (allPairs blocks).length)).map
        (fun j => write_cpp_file p e ((allPairs blocks).length + j)
          "// Blank C++ file generated by autocxx")
        = ((List.range (N - (allPairs blocks).length)).map
            (fun j => (cppName p ((allPairs blocks).length + j) e,
              "// Blank C++ file generated by autocxx"))).map
            (fun w => Step.writeFile w.1 w.2) := by
      rw [List.map_map]
      rfl
    rw [hpad, writesOf_map_writeFile]
  · rw [genCppRun_none_eq p e blocks h, (blockLoop_eq p e blocks h 0).2]
  · rw [everyOther_expectedPairWrites]
    conv_rhs => rw [show N = (allPairs blocks).length
      + (N - (allPairs blocks).length) from by omega]
    rw [List.range_add, List.map_append, List.map_map]
    congr 1
    apply List.map_congr_left
    intro a _
    rw [Nat.zero_add]

/-- Witness for C1: one successful block generating one pair, with pattern
"gen" and extension "cc". -/
theorem c1_generate_exact_accounting_witness :
    (∀ N : Nat,
      writesOf (genCppRun "gen" "cc" (some N)
          [BindingBlock.mk (Except.ok
            [GenerationPair.mk "impl" "hdr.h" "header"])])
        = expectedPairWrites "gen" "cc" 0 (allPairs
            [BindingBlock.mk (Except.ok
              [GenerationPair.mk "impl" "hdr.h" "header"])])
            ++ (List.range (N - (allPairs
                  [BindingBlock.mk (Except.ok
                    [GenerationPair.mk "impl" "hdr.h" "header"])]).length)).map
                (fun j => (cppName "gen" ((allPairs
                    [BindingBlock.mk (Except.ok
                      [GenerationPair.mk "impl" "hdr.h" "header"])]).length + j)
                  "cc", "// Blank C++ file generated by autocxx")))
    ∧ writesOf (genCppRun "gen" "cc" none
          [BindingBlock.mk (Except.ok
            [GenerationPair.mk "impl" "hdr.h" "header"])])
        = expectedPairWrites "gen" "cc" 0 (allPairs
            [BindingBlock.mk (Except.ok
              [GenerationPair.mk "impl" "hdr.h" "header"])])
    ∧ (∀ N : Nat, (allPairs
          [BindingBlock.mk (Except.ok
            [GenerationPair.mk "impl" "hdr.h" "header"])]).length ≤ N →
        (everyOther (expectedPairWrites "gen" "cc" 0 (allPairs
            [BindingBlock.mk (Except.ok
              [GenerationPair.mk "impl" "hdr.h" "header"])]))).map Prod.fst
            ++ (List.range (N - (allPairs
                  [BindingBlock.mk (Except.ok
                    [GenerationPair.mk "impl" "hdr.h" "header"])]).length)).map
                (fun j => cppName "gen" ((allPairs
                    [BindingBlock.mk (Except.ok
                      [GenerationPair.mk "impl" "hdr.h" "header"])]).length + j)
                  "cc")
          = (List.range N).map (fun i => cppName "gen" i "cc")) :=
  c1_generate_exact_accounting "gen" "cc"
    [BindingBlock.mk (Except.ok
      [GenerationPair.mk "impl" "hdr.h" "header"])] (by decide)

/-- C3: in gen-rs mode (with parse and resolve succeeding) the run writes
exactly one file, named gen.rs, containing the re-serialized expanded source
text of the resolved unit — whatever the other argument values are, and with
no gen-cpp option (pattern, cpp-extension, generate-exact) in play, since
those options exist only under the gen-cpp subcommand. -/
theorem c3_gen_rs_single_file (m : Matches) (w : World)
    (hc : m.subGenCpp = none) (hr : m.subGenRs = true)
    (hp : w.parseResult = Except.ok ()) (hv : w.resolveResult = Except.ok ()) :
    runMain m w
      = [Step.callParse, Step.callResolve,
         Step.writeFile "gen.rs" w.tokensString]
    ∧ writesOf (runMain m w) = [("gen.rs", w.tokensString)] := by
  have ht : runMain m w
      = [Step.callParse, Step.callResolve,
         Step.writeFile "gen.rs" w.tokensString] := by
    simp [runMain, hp, hv, hc, hr]
  exact ⟨ht, by rw [ht]; rfl⟩

/-- Witness for C3: a concrete gen-rs invocation. -/
theorem c3_gen_rs_single_file_witness :
    runMain (Matches.mk "input.rs" "out" none none true)
        (World.mk (Except.ok ()) (Except.ok ()) [] "expanded source")
      = [Step.callParse, Step.callResolve,
         Step.writeFile "gen.rs" "expanded source"]
    ∧ writesOf (runMain (Matches.mk "input.rs" "out" none none true)
        (World.mk (Except.ok ()) (Except.ok ()) [] "expanded source"))
        = [("gen.rs", "expanded source")] :=
  c3_gen_rs_single_file (Matches.mk "input.rs" "out" none none true)
    (World.mk (Except.ok ()) (Except.ok ()) [] "expanded source")
    rfl rfl rfl rfl

/-- C6: when the external parse step fails, the process terminates fatally
with the parse diagnostic and no file has been written to the output
directory. -/
theorem c6_parse_failure_no_writes (m : Matches) (w : World) (msg : String)
    (hp : w.parseResult = Except.error msg) :
    runMain m w
      = [Step.callParse,
         Step.panicked "Unable to parse Rust file and interpret autocxx macro"]
    ∧ writesOf (runMain m w) = [] := by
  have ht : runMain m w
      = [Step.callParse,
         Step.panicked "Unable to parse Rust file and interpret autocxx macro"] := by
    simp [runMain, hp]
  exact ⟨ht, by rw [ht]; rfl⟩

/-- Witness for C6: a concrete failing parse. -/
theorem c6_parse_failure_no_writes_witness :
    runMain (Matches.mk "bad.rs" "out" none none true)
        (World.mk (Except.error "syntax error") (Except.ok ()) [] "")
      = [Step.callParse,
         Step.panicked "Unable to parse Rust file and interpret autocxx macro"]
    ∧ writesOf (runMain (Matches.mk "bad.rs" "out" none none true)
        (World.mk (Except.error "syntax error") (Except.ok ()) [] "")) = [] :=
  c6_parse_failure_no_writes (Matches.mk "bad.rs" "out" none none true)
    (World.mk (Except.error "syntax error") (Except.ok ()) [] "")
    "syntax error" rfl

/-- Counterexample to C2 as stated: an invocation with a missing subcommand
(well-formed otherwise) runs both external calls — parse and resolve — before
the usage panic, so the process does not terminate before any external call. -/
theorem c2_usage_error_counterexample :
    (Matches.mk "input.rs" "out" none none false).subGenCpp = none
    ∧ (Matches.mk "input.rs" "out" none none false).subGenRs = false
    ∧ runMain (Matches.mk "input.rs" "out" none none false)
        (World.mk (Except.ok ()) (Except.ok ()) [] "")
      = [Step.callParse, Step.callResolve,
         Step.panicked "Must specify a subcommand"] :=
  ⟨rfl, rfl, rfl⟩

/-- C2 as amended: a missing subcommand and a non-numeric generate-exact
value are reported as fatal usage panics only after parse and resolve have
both been invoked — though still before any file is written. -/
theorem c2_usage_errors_after_parse_resolve (m : Matches) (w : World)
    (hp : w.parseResult = Except.ok ()) (hv : w.resolveResult = Except.ok ()) :
    (m.subGenCpp = none → m.subGenRs = false →
      runMain m w
        = [Step.callParse, Step.callResolve,
           Step.panicked "Must specify a subcommand"]
      ∧ writesOf (runMain m w) = [])
    ∧ (∀ (gm : GenCppMatches) (s : String),
        m.subGenCpp = some gm → gm.generateExact = some s →
        parseUsize s = none →
        runMain m w
          = [Step.callParse, Step.callResolve,
             Step.panicked "called Result::unwrap on an Err value"]
        ∧ writesOf (runMain m w) = []) := by
  constructor
  · intro hc hr
    have ht : runMain m w
        = [Step.callParse, Step.callResolve,
           Step.panicked "Must specify a subcommand"] := by
      simp [runMain, hp, hv, hc, hr]
    exact ⟨ht, by rw [ht]; rfl⟩
  · intro gm s hgm hs hbad
    have ht : runMain m w
        = [Step.callParse, Step.callResolve,
           Step.panicked "called Result::unwrap on an Err value"] := by
      simp [runMain, hp, hv, hgm, hs, hbad]
    exact ⟨ht, by rw [ht]; rfl⟩

/-- Witness for the amended C2: a missing subcommand with parse and resolve
succeeding. -/
theorem c2_usage_errors_after_parse_resolve_witness :
    runMain (Matches.mk "input.rs" "out" none none false)
        (World.mk (Except.ok ()) (Except.ok ()) [] "")
      = [Step.callParse, Step.callResolve,
         Step.panicked "Must specify a subcommand"]
    ∧ writesOf (runMain (Matches.mk "input.rs" "out" none none false)
        (World.mk (Except.ok ()) (Except.ok ()) [] "")) = [] :=
  (c2_usage_errors_after_parse_resolve
      (Matches.mk "input.rs" "out" none none false)
      (World.mk (Except.ok ()) (Except.ok ()) [] "")
      rfl rfl).1 rfl rfl

/-- C7: every padding file is named by the same Naming Policy as real
implementation files, has exactly the content
"// Blank C++ file generated by autocxx", and has no header written
alongside it (the padding loop emits nothing but those implementation
writes); concretely, with zero Binding Blocks and generate-exact 2 the run
writes exactly gen0.cc and gen1.cc with that content and no headers. -/
theorem c7_padding_files_shape :
    (∀ (p e : String) (c d : Nat),
      paddingLoop p e c d
        = (List.range (d - c)).map
            (fun j => Step.writeFile (cppName p (c + j) e)
              "// Blank C++ file generated by autocxx"))
    ∧ runMain (Matches.mk "input.rs" "out" none
          (some (GenCppMatches.mk "gen" "cc" (some "2"))) false)
        (World.mk (Except.ok ()) (Except.ok ()) [] "")
      = [Step.callParse, Step.callResolve,
         Step.writeFile "gen0.cc" "// Blank C++ file generated by autocxx",
         Step.writeFile "gen1.cc" "// Blank C++ file generated by autocxx"] := by
  constructor
  · intro p e c d
    rw [paddingLoop_eq]
    rfl
  · have h2 : paddingLoop "gen" "cc" 0 2
        = [Step.writeFile "gen0.cc" "// Blank C++ file generated by autocxx",
           Step.writeFile "gen1.cc" "// Blank C++ file generated by autocxx"] := by
      rw [paddingLoop_eq]
      decide
    have h1 : runMain (Matches.mk "input.rs" "out" none
          (some (GenCppMatches.mk "gen" "cc" (some "2"))) false)
        (World.mk (Except.ok ()) (Except.ok ()) [] "")
        = Step.callParse :: Step.callResolve :: paddingLoop "gen" "cc" 0 2 := rfl
    rw [h1, h2]

/-- C10: within each Generation Pair the implementation file is written
before the header file, and every write silently overwrites; hence when a
pair's externally supplied header_name equals its generated implementation
filename, the final content at that path is the header text — last write
wins, with no error and no collision check. -/
theorem c10_pair_order_last_write_wins (p e : String) (c : Nat)
    (pair : GenerationPair) (fs : FileSystem)
    (h : pair.header_name = cppName p c e) :
    (pairLoop p e c [pair]).1
      = [Step.writeFile (cppName p c e) pair.implementation,
         Step.writeFile pair.header_name pair.header]
    ∧ applyWrites fs (writesOf (pairLoop p e c [pair]).1) (cppName p c e)
        = some pair.header := by
  have ht : (pairLoop p e c [pair]).1
      = [Step.writeFile (cppName p c e) pair.implementation,
         Step.writeFile pair.header_name pair.header] := by
    simp [pairLoop]
  refine ⟨ht, ?_⟩
  rw [ht]
  show applyWrites fs [(cppName p c e, pair.implementation),
    (pair.header_name, pair.header)] (cppName p c e) = some pair.header
  simp [applyWrites, write_to_file, h]

/-- Witness for C10: a pair whose header name collides with its generated
implementation filename gen0.cc. -/
theorem c10_pair_order_last_write_wins_witness :
    (pairLoop "gen" "cc" 0
        [GenerationPair.mk "impl text" "gen0.cc" "header text"]).1
      = [Step.writeFile (cppName "gen" 0 "cc") "impl text",
         Step.writeFile "gen0.cc" "header text"]
    ∧ applyWrites (fun _ => none)
        (writesOf (pairLoop "gen" "cc" 0
          [GenerationPair.mk "impl text" "gen0.cc" "header text"]).1)
        (cppName "gen" 0 "cc") = some "header text" :=
  c10_pair_order_last_write_wins "gen" "cc" 0
    (GenerationPair.mk "impl text" "gen0.cc" "header text") (fun _ => none)
    (by decide)

end AutocxxGen
